import Mathlib

/-!
Verification of the scroll-highlighter (src/js/highlighter.js).

The script owns a list of tracked elements, a WeakMap cache of each
element's page-relative top offset, and a cached viewport height.  Its two
operations are reflow (recompute the cache from the live page) and
update(scrollTop) (compute each element's highlight progress from the
cache and write it to a style property as an integer-percentage string).
An overridden push on the element list appends and then reflows.

Embedding choices:
* JavaScript numbers are modelled as exact rationals extended with the
  IEEE special values the code can actually produce: positive and negative
  infinity (finite / 0) and NaN (0 / 0, or arithmetic on an undefined
  WeakMap lookup).  Signed zero is not tracked; for every operation chain
  in this code the rendered string is unaffected by the sign of a zero.
* DOM elements are identified by natural-number ids; the page geometry an
  operation reads (window.innerHeight, the offsetTop / offsetParent chain
  of each element) is an explicit environment argument.
* Element styles are modelled as the string written to the
  custom property of each element id.
-/

/-- A JavaScript number: an exact rational, or one of the IEEE special
values reachable in this program (infinities from division by zero, NaN
from 0/0 and from arithmetic on an undefined value). -/
inductive JNum where
  | fin (q : ℚ)
  | posInf
  | negInf
  | nan
deriving DecidableEq

namespace JNum

/-- JavaScript subtraction. -/
def sub : JNum → JNum → JNum
  | nan, _ => nan
  | _, nan => nan
  | fin a, fin b => fin (a - b)
  | fin _, posInf => negInf
  | fin _, negInf => posInf
  | posInf, fin _ => posInf
  | posInf, posInf => nan
  | posInf, negInf => posInf
  | negInf, fin _ => negInf
  | negInf, posInf => negInf
  | negInf, negInf => nan

/-- JavaScript multiplication. -/
def mul : JNum → JNum → JNum
  | nan, _ => nan
  | _, nan => nan
  | fin a, fin b => fin (a * b)
  | fin a, posInf => if 0 < a then posInf else if a < 0 then negInf else nan
  | fin a, negInf => if 0 < a then negInf else if a < 0 then posInf else nan
  | posInf, fin b => if 0 < b then posInf else if b < 0 then negInf else nan
  | negInf, fin b => if 0 < b then negInf else if b < 0 then posInf else nan
  | posInf, posInf => posInf
  | posInf, negInf => negInf
  | negInf, posInf => negInf
  | negInf, negInf => posInf

/-- JavaScript division.  Finite / 0 follows IEEE: positive / 0 is
+Infinity, negative / 0 is -Infinity, 0 / 0 is NaN (the model has no
negative zero, so the divisor zero is treated as +0). -/
def div : JNum → JNum → JNum
  | nan, _ => nan
  | _, nan => nan
  | fin a, fin b =>
      if b = 0 then (if 0 < a then posInf else if a < 0 then negInf else nan)
      else fin (a / b)
  | fin _, posInf => fin 0
  | fin _, negInf => fin 0
  | posInf, fin b => if 0 ≤ b then posInf else negInf
  | negInf, fin b => if 0 ≤ b then negInf else posInf
  | posInf, posInf => nan
  | posInf, negInf => nan
  | negInf, posInf => nan
  | negInf, negInf => nan

/-- JavaScript strict less-than; any comparison involving NaN is false. -/
def jlt : JNum → JNum → Bool
  | nan, _ => false
  | _, nan => false
  | fin a, fin b => decide (a < b)
  | fin _, posInf => true
  | fin _, negInf => false
  | posInf, _ => false
  | negInf, negInf => false
  | negInf, _ => true

/-- Math.min: NaN if either argument is NaN, otherwise the smaller. -/
def jmin (a b : JNum) : JNum :=
  if a = nan ∨ b = nan then nan else if jlt b a then b else a

/-- Math.max: NaN if either argument is NaN, otherwise the larger. -/
def jmax (a b : JNum) : JNum :=
  if a = nan ∨ b = nan then nan else if jlt a b then b else a

/-- Number.prototype.toFixed(0): the integer closest to the value, ties
resolved to the larger integer (round half up), rendered in decimal;
"NaN" and the infinity strings for the special values. -/
def toFixed0 : JNum → String
  | fin q => toString ⌊q + 1 / 2⌋
  | posInf => "Infinity"
  | negInf => "-Infinity"
  | nan => "NaN"

end JNum

/-- A rendered DOM node as getPageOffsetTop sees it: its offsetTop
relative to its offsetParent, and the offsetParent chain (a root node has
offsetParent null). -/
inductive DomNode where
  | root (offsetTop : ℚ)
  | child (offsetTop : ℚ) (parent : DomNode)

/-- getPageOffsetTop: the do/while loop
offset += node.offsetTop; node = node.offsetParent
run until offsetParent is null. -/
def getPageOffsetTop : DomNode → ℚ
  | .root t => t
  | .child t p => t + getPageOffsetTop p

/-- The offsetTop values along a node's whole offsetParent chain,
starting with the node itself. -/
def DomNode.chain : DomNode → List ℚ
  | .root t => [t]
  | .child t p => t :: p.chain

/-- The external rendering environment read by reflow: the current
viewport height and the live DOM node of each element id. -/
structure PageEnv where
  innerHeight : ℚ
  dom : Nat → DomNode

/-- The mutable state of one scrollHighlighter instance: the tracked
element list, the WeakMap offset cache, the cached viewport height and
each element's written style property. -/
structure TrackerState where
  elements : List Nat
  offsets : Nat → Option ℚ
  windowHeight : ℚ
  styles : Nat → Option String

/-- START_OFFSET = 0.3. -/
def START_OFFSET : ℚ := 3 / 10

/-- END_OFFSET = 0.7. -/
def END_OFFSET : ℚ := 7 / 10

/-- offsets.get(el): undefined (here: a missing entry) behaves as NaN in
every arithmetic operation and comparison the update body applies to it. -/
def weakMapGet (m : Nat → Option ℚ) (id : Nat) : JNum :=
  match m id with
  | some q => .fin q
  | none => .nan

/-- The clamped progress computed by the body of update's forEach for one
element: relPosition, the adaptive startAt readjustment, the progress
quotient, and the clamp to [0, 1]. -/
def clampedProgress (windowHeight elOffset scrollTop : JNum) : JNum :=
  let endAt := JNum.fin END_OFFSET
  let relPosition := JNum.sub (JNum.fin 1) (JNum.div (JNum.sub elOffset scrollTop) windowHeight)
  let startAt := JNum.fin START_OFFSET
  let startOffset := JNum.mul windowHeight (JNum.sub (JNum.fin 1) startAt)
  let startAt :=
    if JNum.jlt elOffset startOffset then
      JNum.jmin endAt (JNum.sub (JNum.fin 1) (JNum.div elOffset windowHeight))
    else startAt
  let progress := JNum.div (JNum.sub relPosition startAt) (JNum.sub endAt startAt)
  JNum.jmin (JNum.fin 1) (JNum.jmax (JNum.fin 0) progress)

/-- The string written to one element's custom style property:
(clampedProgress * 100).toFixed(0) + "%". -/
def updateElement (windowHeight elOffset scrollTop : JNum) : String :=
  JNum.toFixed0 (JNum.mul (clampedProgress windowHeight elOffset scrollTop) (JNum.fin 100)) ++ "%"

/-- update(scrollTop): for every tracked element, write the progress
string computed from its cached offset and the cached viewport height.
Nothing else in the state changes. -/
def update (st : TrackerState) (scrollTop : ℚ) : TrackerState :=
  { st with
    styles := fun id =>
      if id ∈ st.elements then
        some (updateElement (.fin st.windowHeight) (weakMapGet st.offsets id) (.fin scrollTop))
      else st.styles id }

/-- reflow(): cache the current viewport height and, for every tracked
element, its page-relative top offset. -/
def reflow (env : PageEnv) (st : TrackerState) : TrackerState :=
  { st with
    windowHeight := env.innerHeight,
    offsets := fun id =>
      if id ∈ st.elements then some (getPageOffsetTop (env.dom id))
      else st.offsets id }

/-- The overridden instance.elements.push: append the arguments with the
native Array push (returning the new length), then reflow. -/
def pushElements (env : PageEnv) (st : TrackerState) (args : List Nat) : TrackerState × Nat :=
  let newElements := st.elements ++ args
  (reflow env { st with elements := newElements }, newElements.length)

/-- scrollHighlighter(elements): build the instance, reflow, update(0). -/
def scrollHighlighter (env : PageEnv) (elements : List Nat) : TrackerState :=
  update
    (reflow env
      { elements := elements, offsets := fun _ => none, windowHeight := 0, styles := fun _ => none })
    0

/-- The effective start threshold update computes for an element with a
finite cached offset and a finite positive viewport height (a pure
rational shadow of the startAt readjustment in clampedProgress). -/
def startAtQ (elOffset windowHeight : ℚ) : ℚ :=
  if elOffset < windowHeight * (1 - START_OFFSET) then
    min END_OFFSET (1 - elOffset / windowHeight)
  else START_OFFSET

namespace JNum

@[simp] theorem sub_fin (a b : ℚ) : sub (fin a) (fin b) = fin (a - b) := rfl

@[simp] theorem mul_fin (a b : ℚ) : mul (fin a) (fin b) = fin (a * b) := rfl

@[simp] theorem mul_nan_left (b : JNum) : mul nan b = nan := by cases b <;> rfl

theorem div_fin_of_ne (a b : ℚ) (hb : b ≠ 0) : div (fin a) (fin b) = fin (a / b) := by
  simp [div, hb]

theorem div_fin_zero_pos (a : ℚ) (ha : 0 < a) : div (fin a) (fin 0) = posInf := by
  simp [div, ha]

theorem div_fin_zero_neg (a : ℚ) (ha : a < 0) : div (fin a) (fin 0) = negInf := by
  simp [div, ha, asymm ha]

theorem div_zero_zero : div (fin 0) (fin 0) = nan := by
  simp [div]

@[simp] theorem jlt_fin (a b : ℚ) : jlt (fin a) (fin b) = decide (a < b) := rfl

@[simp] theorem jmin_fin (a b : ℚ) : jmin (fin a) (fin b) = fin (min a b) := by
  rcases lt_or_le b a with h | h
  · simp [jmin, jlt, h, min_eq_right h.le]
  · simp [jmin, jlt, not_lt.mpr h, min_eq_left h]

@[simp] theorem jmax_fin (a b : ℚ) : jmax (fin a) (fin b) = fin (max a b) := by
  rcases lt_or_le a b with h | h
  · simp [jmax, jlt, h, max_eq_right h.le]
  · simp [jmax, jlt, not_lt.mpr h, max_eq_left h]

@[simp] theorem jmin_fin_posInf (a : ℚ) : jmin (fin a) posInf = fin a := by
  simp [jmin, jlt]

@[simp] theorem jmax_fin_posInf (a : ℚ) : jmax (fin a) posInf = posInf := by
  simp [jmax, jlt]

@[simp] theorem jmax_fin_negInf (a : ℚ) : jmax (fin a) negInf = fin a := by
  simp [jmax, jlt]

@[simp] theorem jmin_fin_nan (a : ℚ) : jmin (fin a) nan = nan := by
  simp [jmin]

@[simp] theorem jmax_fin_nan (a : ℚ) : jmax (fin a) nan = nan := by
  simp [jmax]

@[simp] theorem toFixed0_fin (q : ℚ) : toFixed0 (fin q) = toString ⌊q + 1 / 2⌋ := rfl

end JNum

/-- Reduction of the forEach body to a single rational division: for a
finite offset, a finite nonzero viewport height and a finite scrollTop,
the clamped progress is the clamp of
(relPosition - startAtQ) / (END_OFFSET - startAtQ). -/
theorem clampedProgress_eq (O H s : ℚ) (hH : H ≠ 0) :
    clampedProgress (.fin H) (.fin O) (.fin s) =
      JNum.jmin (.fin 1)
        (JNum.jmax (.fin 0)
          (JNum.div (.fin (1 - (O - s) / H - startAtQ O H))
            (.fin (END_OFFSET - startAtQ O H)))) := by
  unfold clampedProgress startAtQ
  rw [JNum.sub_fin, JNum.div_fin_of_ne _ _ hH]
  by_cases hc : O < H * (1 - START_OFFSET)
  · rw [JNum.div_fin_of_ne _ _ hH]
    simp [hc]
  · simp [hc]

/-- In the non-degenerate case (effective start threshold strictly below
END_OFFSET) the clamped progress is a plain rational clamp. -/
theorem clampedProgress_of_lt (O H s : ℚ) (hH : H ≠ 0)
    (hS : startAtQ O H < END_OFFSET) :
    clampedProgress (.fin H) (.fin O) (.fin s) =
      .fin (min 1 (max 0 ((1 - (O - s) / H - startAtQ O H) / (END_OFFSET - startAtQ O H)))) := by
  rw [clampedProgress_eq O H s hH,
    JNum.div_fin_of_ne _ _ (by exact sub_ne_zero.mpr hS.ne'), JNum.jmax_fin, JNum.jmin_fin]

/-- Degenerate threshold range with a positive numerator: the raw
progress is +Infinity and the clamp yields 1. -/
theorem clampedProgress_degenerate_pos (O H s : ℚ) (hH : H ≠ 0)
    (hS : startAtQ O H = END_OFFSET) (hnum : END_OFFSET < 1 - (O - s) / H) :
    clampedProgress (.fin H) (.fin O) (.fin s) = .fin 1 := by
  rw [clampedProgress_eq O H s hH, hS, sub_self,
    JNum.div_fin_zero_pos _ (by linarith), JNum.jmax_fin_posInf, JNum.jmin_fin_posInf]

/-- Degenerate threshold range with a negative numerator: the raw
progress is -Infinity and the clamp yields 0. -/
theorem clampedProgress_degenerate_neg (O H s : ℚ) (hH : H ≠ 0)
    (hS : startAtQ O H = END_OFFSET) (hnum : 1 - (O - s) / H < END_OFFSET) :
    clampedProgress (.fin H) (.fin O) (.fin s) = .fin 0 := by
  rw [clampedProgress_eq O H s hH, hS, sub_self,
    JNum.div_fin_zero_neg _ (by linarith), JNum.jmax_fin_negInf, JNum.jmin_fin]
  norm_num

/-- Degenerate threshold range with a zero numerator: the raw progress is
0/0 = NaN and the clamp propagates it. -/
theorem clampedProgress_degenerate_nan (O H s : ℚ) (hH : H ≠ 0)
    (hS : startAtQ O H = END_OFFSET) (hnum : 1 - (O - s) / H = END_OFFSET) :
    clampedProgress (.fin H) (.fin O) (.fin s) = .nan := by
  rw [clampedProgress_eq O H s hH, hS, hnum, sub_self, JNum.div_zero_zero,
    JNum.jmax_fin_nan, JNum.jmin_fin_nan]

/-- updateElement renders a finite clamped progress via toFixed(0). -/
theorem updateElement_of_fin (wh el st : JNum) (c : ℚ)
    (h : clampedProgress wh el st = .fin c) :
    updateElement wh el st = toString ⌊c * 100 + 1 / 2⌋ ++ "%" := by
  rw [updateElement, h, JNum.mul_fin, JNum.toFixed0_fin]

/-- updateElement renders a NaN clamped progress as "NaN%". -/
theorem updateElement_of_nan (wh el st : JNum)
    (h : clampedProgress wh el st = .nan) :
    updateElement wh el st = "NaN%" := by
  rw [updateElement, h, JNum.mul_nan_left]
  rfl

/-- getPageOffsetTop is the sum of the offsetTop values along the whole
offsetParent chain. -/
theorem getPageOffsetTop_eq_chain_sum (n : DomNode) :
    getPageOffsetTop n = n.chain.sum := by
  induction n with
  | root t => simp [getPageOffsetTop, DomNode.chain]
  | child t p ih => simp [getPageOffsetTop, DomNode.chain, ih]

/-- Claim C5: for a single tracked element with cached offset 1000 and
cached viewport height 1000, update(0) writes "0%" (raw progress -0.75
clamps to 0; the adaptive adjustment does not trigger since 1000 is not
below 700) and update(650) writes "88%" (raw progress 0.875, rendered as
88 after rounding to the nearest whole number). -/
theorem update_scenario_offset1000 :
    updateElement (.fin 1000) (.fin 1000) (.fin 0) = "0%" ∧
    updateElement (.fin 1000) (.fin 1000) (.fin 650) = "88%" := by
  have hS : startAtQ 1000 1000 = 3 / 10 := by
    rw [startAtQ, START_OFFSET, if_neg (by norm_num)]
  constructor
  · rw [updateElement_of_fin _ _ _ _
      (clampedProgress_of_lt 1000 1000 0 (by norm_num) (by rw [hS, END_OFFSET]; norm_num))]
    rw [hS, END_OFFSET]
    norm_num
    decide
  · rw [updateElement_of_fin _ _ _ _
      (clampedProgress_of_lt 1000 1000 650 (by norm_num) (by rw [hS, END_OFFSET]; norm_num))]
    rw [hS, END_OFFSET]
    norm_num
    decide

/-- Claim C1 (counterexample): an element with cached offset 200 and
cached viewport height 1000 satisfies O < H * 0.7, yet update(0) writes
"100%", not "0%": the adaptive adjustment sets S = E = 0.7 and the raw
progress 0.1 / 0 is +Infinity, which clamps to 1. -/
theorem adaptive_start_cex :
    (200 : ℚ) < 1000 * (7 / 10) ∧
    updateElement (.fin 1000) (.fin 200) (.fin 0) = "100%" ∧
    updateElement (.fin 1000) (.fin 200) (.fin 0) ≠ "0%" := by
  have hS : startAtQ 200 1000 = END_OFFSET := by
    rw [startAtQ, if_pos (by rw [START_OFFSET]; norm_num), END_OFFSET, min_eq_left (by norm_num)]
  have h : updateElement (.fin 1000) (.fin 200) (.fin 0) = "100%" := by
    rw [updateElement_of_fin _ _ _ _
      (clampedProgress_degenerate_pos 200 1000 0 (by norm_num) hS (by rw [END_OFFSET]; norm_num))]
    norm_num
    decide
  exact ⟨by norm_num, h, by rw [h]; decide⟩

/-- Claim C1 (amended): for every tracked element whose cached page
offset O and cached viewport height H satisfy H * 0.3 < O < H * 0.7
(H > 0), calling update(0) assigns that element a highlight progress of
0 (the style property is set to "0%").  The original lower limit O <
H * 0.7 alone is not enough: for O at or below H * 0.3 the adaptive
adjustment makes the threshold range degenerate and update(0) writes
"100%" (or "NaN%" exactly at O = H * 0.3) instead. -/
theorem update_zero_of_middle_offset (O H : ℚ) (hH : 0 < H)
    (h1 : H * (3 / 10) < O) (h2 : O < H * (7 / 10)) :
    updateElement (.fin H) (.fin O) (.fin 0) = "0%" := by
  have hOH : 3 / 10 < O / H := by
    rw [lt_div_iff₀ hH]
    linarith
  have hS : startAtQ O H = 1 - O / H := by
    rw [startAtQ, if_pos (by rw [START_OFFSET]; linarith), END_OFFSET,
      min_eq_right (by linarith)]
  have hlt : startAtQ O H < END_OFFSET := by
    rw [hS, END_OFFSET]
    linarith
  rw [updateElement_of_fin _ _ _ _ (clampedProgress_of_lt O H 0 hH.ne' hlt), hS]
  have hnum : 1 - (O - 0) / H - (1 - O / H) = 0 := by ring
  rw [hnum, zero_div]
  norm_num
  decide

/-- Witness for the amended claim C1 at O = 500, H = 1000. -/
theorem update_zero_of_middle_offset_witness :
    updateElement (.fin 1000) (.fin 500) (.fin 0) = "0%" :=
  update_zero_of_middle_offset 500 1000 (by norm_num) (by norm_num) (by norm_num)

/-- Claim C3 (counterexample): for an element with cached offset 300 and
cached viewport height 1000 the adaptive adjustment also yields S = E =
0.7, but update(0) writes "NaN%", not "100%": the raw progress is 0 / 0
= NaN and Math.max / Math.min propagate it. -/
theorem degenerate_nan_cex :
    startAtQ 300 1000 = END_OFFSET ∧
    updateElement (.fin 1000) (.fin 300) (.fin 0) = "NaN%" ∧
    updateElement (.fin 1000) (.fin 300) (.fin 0) ≠ "100%" := by
  have hS : startAtQ 300 1000 = END_OFFSET := by
    rw [startAtQ, if_pos (by rw [START_OFFSET]; norm_num), END_OFFSET, min_eq_left (by norm_num)]
  have h : updateElement (.fin 1000) (.fin 300) (.fin 0) = "NaN%" :=
    updateElement_of_nan _ _ _
      (clampedProgress_degenerate_nan 300 1000 0 (by norm_num) hS (by rw [END_OFFSET]; norm_num))
  exact ⟨hS, h, by rw [h]; decide⟩

/-- Claim C3 (amended): when the adaptive adjustment produces S = E
(O ≤ 0.3 * H, H > 0) and the raw numerator is positive (scrollTop >
O - 0.3 * H), the +Infinity quotient clamps to 1 and update writes
"100%"; in particular, for cached offset 200 and cached viewport height
1000, update(0) writes "100%".  When the numerator is exactly zero the
code instead writes "NaN%", so NaN is not avoided in every degenerate
case. -/
theorem degenerate_pos_writes_100 (O H s : ℚ) (hH : 0 < H)
    (hO : O ≤ H * (3 / 10)) (hs : O - H * (3 / 10) < s) :
    updateElement (.fin H) (.fin O) (.fin s) = "100%" := by
  have hS : startAtQ O H = END_OFFSET := by
    rw [startAtQ, if_pos (by rw [START_OFFSET]; nlinarith), END_OFFSET]
    refine min_eq_left ?_
    have h3 : O / H ≤ 3 / 10 := by
      rw [div_le_iff₀ hH]
      linarith
    linarith
  have hnum : END_OFFSET < 1 - (O - s) / H := by
    rw [END_OFFSET]
    have : (O - s) / H < 3 / 10 := by
      rw [div_lt_iff₀ hH]
      linarith
    linarith
  rw [updateElement_of_fin _ _ _ _ (clampedProgress_degenerate_pos O H s hH.ne' hS hnum)]
  norm_num
  decide

/-- Witness for the amended claim C3 at O = 200, H = 1000, scrollTop = 0
(the concrete instance named by the claim). -/
theorem degenerate_pos_writes_100_witness :
    updateElement (.fin 1000) (.fin 200) (.fin 0) = "100%" :=
  degenerate_pos_writes_100 200 1000 0 (by norm_num) (by norm_num) (by norm_num)

/-- Claim C8: after reflow() the cached viewport height equals the
current viewport height, and every tracked element's offset cache entry
is the sum of its offsetTop values along its entire offsetParent chain
(its page-relative top position at call time), overwriting any prior
entry. -/
theorem reflow_caches_geometry (env : PageEnv) (st : TrackerState) :
    (reflow env st).windowHeight = env.innerHeight ∧
    ∀ id ∈ st.elements, (reflow env st).offsets id = some (env.dom id).chain.sum := by
  refine ⟨rfl, fun id hid => ?_⟩
  simp [reflow, hid, getPageOffsetTop_eq_chain_sum]

/-- Witness for claim C8 on a one-element tracker whose DOM node has a
two-step offsetParent chain. -/
theorem reflow_caches_geometry_witness :
    (reflow ⟨768, fun _ => .child 40 (.root 2)⟩
        ⟨[3], fun _ => none, 0, fun _ => none⟩).windowHeight = 768 ∧
    (reflow ⟨768, fun _ => .child 40 (.root 2)⟩
        ⟨[3], fun _ => none, 0, fun _ => none⟩).offsets 3 =
      some ((DomNode.child 40 (.root 2)).chain.sum) :=
  ⟨(reflow_caches_geometry _ _).1, (reflow_caches_geometry _ _).2 3 (by decide)⟩

/-- Claim C9: update(scrollTop) never modifies the offset cache, the
cached viewport height or the tracked-element list; it only rewrites the
style properties. -/
theorem update_frame (st : TrackerState) (x : ℚ) :
    (update st x).offsets = st.offsets ∧
    (update st x).windowHeight = st.windowHeight ∧
    (update st x).elements = st.elements :=
  ⟨rfl, rfl, rfl⟩

/-- Claim C10: the overridden push preserves the native append contract:
the arguments are appended at the end of the element list in argument
order and the new length of the collection is returned. -/
theorem push_append_contract (env : PageEnv) (st : TrackerState) (args : List Nat) :
    (pushElements env st args).1.elements = st.elements ++ args ∧
    (pushElements env st args).2 = st.elements.length + args.length :=
  ⟨rfl, by simp [pushElements]⟩

/-- Claim C4: after appending elements through the overridden push, every
element of the collection — including each newly appended one — has a
defined offset cache entry, and an immediately following update(scrollTop)
assigns it a defined progress style. -/
theorem push_defines_offsets (env : PageEnv) (st : TrackerState) (args : List Nat)
    (s : ℚ) (id : Nat) (hid : id ∈ (pushElements env st args).1.elements) :
    ((pushElements env st args).1.offsets id).isSome ∧
    ((update (pushElements env st args).1 s).styles id).isSome := by
  have hmem : id ∈ st.elements ++ args := hid
  constructor
  · show (if id ∈ st.elements ++ args then some (getPageOffsetTop (env.dom id))
      else st.offsets id).isSome
    simp [hmem]
  · show (if id ∈ st.elements ++ args then
        some (updateElement (.fin (pushElements env st args).1.windowHeight)
          (weakMapGet (pushElements env st args).1.offsets id) (.fin s))
      else (pushElements env st args).1.styles id).isSome
    simp [hmem]

/-- Witness for claim C4: pushing element 5 onto an empty tracker and
then updating. -/
theorem push_defines_offsets_witness :
    ((pushElements ⟨600, fun _ => .root 10⟩ ⟨[], fun _ => none, 0, fun _ => none⟩ [5]).1.offsets
        5).isSome ∧
    ((update (pushElements ⟨600, fun _ => .root 10⟩ ⟨[], fun _ => none, 0, fun _ => none⟩
        [5]).1 0).styles 5).isSome :=
  push_defines_offsets ⟨600, fun _ => .root 10⟩ ⟨[], fun _ => none, 0, fun _ => none⟩ [5] 0 5
    (by decide)

/-- Claim C7: update is deterministic and idempotent over unchanged
state: update(x) twice in a row writes identical styles (the second call
reproduces the first call's state exactly), and each tracked element's
written style is a function only of x, its cached offset and the cached
viewport height. -/
theorem update_idempotent (st : TrackerState) (x : ℚ) :
    update (update st x) x = update st x ∧
    ∀ id ∈ st.elements, (update st x).styles id =
      some (updateElement (.fin st.windowHeight) (weakMapGet st.offsets id) (.fin x)) := by
  constructor
  · cases st with
    | mk es offs wh sts =>
      simp only [update]
      congr 1
      funext id
      by_cases h : id ∈ es <;> simp [h]
  · intro id hid
    simp [update, hid]

/-- Witness for claim C7 on a one-element tracker. -/
theorem update_idempotent_witness :
    update (update ⟨[0], fun _ => some 1000, 1000, fun _ => none⟩ 0) 0 =
      update ⟨[0], fun _ => some 1000, 1000, fun _ => none⟩ 0 ∧
    (update ⟨[0], fun _ => some 1000, 1000, fun _ => none⟩ 0).styles 0 =
      some (updateElement (.fin 1000) (weakMapGet (fun _ => some 1000) 0) (.fin 0)) :=
  ⟨(update_idempotent ⟨[0], fun _ => some 1000, 1000, fun _ => none⟩ 0).1,
    (update_idempotent ⟨[0], fun _ => some 1000, 1000, fun _ => none⟩ 0).2 0 (by decide)⟩

/-- The effective start threshold never exceeds END_OFFSET. -/
theorem startAtQ_le_end (O H : ℚ) : startAtQ O H ≤ END_OFFSET := by
  rw [startAtQ]
  split
  · exact min_le_left _ _
  · rw [START_OFFSET, END_OFFSET]
    norm_num

/-- The threshold range degenerates (S = E) exactly when the cached
offset is at most 0.3 times the cached viewport height. -/
theorem startAtQ_eq_end_iff (O H : ℚ) (hH : 0 < H) :
    startAtQ O H = END_OFFSET ↔ O ≤ H * (3 / 10) := by
  rw [startAtQ]
  by_cases h : O < H * (1 - START_OFFSET)
  · rw [if_pos h, min_eq_left_iff, END_OFFSET]
    constructor
    · intro h7
      have h3 : O / H ≤ 3 / 10 := by linarith
      rw [div_le_iff₀ hH] at h3
      linarith
    · intro hO
      have h3 : O / H ≤ 3 / 10 := by
        rw [div_le_iff₀ hH]
        linarith
      linarith
  · rw [if_neg h]
    rw [START_OFFSET] at h ⊢
    push_neg at h
    rw [END_OFFSET]
    constructor
    · intro he
      exact absurd he (by norm_num)
    · intro hO
      exfalso
      linarith

/-- The rounded percentage of a clamp to [0, 1] lies in [0, 100]. -/
theorem floor_percent_bounds (c : ℚ) (h0 : 0 ≤ c) (h1 : c ≤ 1) :
    0 ≤ ⌊c * 100 + 1 / 2⌋ ∧ ⌊c * 100 + 1 / 2⌋ ≤ 100 := by
  constructor
  · refine Int.le_floor.mpr ?_
    push_cast
    linarith
  · have h : ⌊c * 100 + 1 / 2⌋ < 101 := by
      refine Int.floor_lt.mpr ?_
      push_cast
      linarith
    omega

/-- Claim C2 (amended): for every tracked element with a cache entry O
and cached viewport height H > 0, and every finite scrollTop, update
writes an integer-percentage string in [0, 100] — except in the single
degenerate case O ≤ 0.3 * H with scrollTop = O - 0.3 * H, where the raw
progress is 0 / 0 and the code writes "NaN%". -/
theorem update_writes_percent (O H s : ℚ) (hH : 0 < H)
    (hnd : ¬(O ≤ H * (3 / 10) ∧ s = O - H * (3 / 10))) :
    ∃ n : ℤ, 0 ≤ n ∧ n ≤ 100 ∧
      updateElement (.fin H) (.fin O) (.fin s) = toString n ++ "%" := by
  by_cases hdeg : startAtQ O H = END_OFFSET
  · have hO : O ≤ H * (3 / 10) := (startAtQ_eq_end_iff O H hH).mp hdeg
    have hs : s ≠ O - H * (3 / 10) := fun h => hnd ⟨hO, h⟩
    rcases lt_trichotomy (1 - (O - s) / H) END_OFFSET with hn | hn | hn
    · refine ⟨0, le_refl 0, by norm_num, ?_⟩
      rw [updateElement_of_fin _ _ _ _ (clampedProgress_degenerate_neg O H s hH.ne' hdeg hn)]
      norm_num
    · exfalso
      apply hs
      rw [END_OFFSET] at hn
      have h3 : (O - s) / H = 3 / 10 := by linarith
      rw [div_eq_iff hH.ne'] at h3
      linarith
    · refine ⟨100, by norm_num, le_refl 100, ?_⟩
      rw [updateElement_of_fin _ _ _ _ (clampedProgress_degenerate_pos O H s hH.ne' hdeg hn)]
      norm_num
  · have hlt : startAtQ O H < END_OFFSET := lt_of_le_of_ne (startAtQ_le_end O H) hdeg
    have h0 : 0 ≤ min 1 (max 0 ((1 - (O - s) / H - startAtQ O H) / (END_OFFSET - startAtQ O H))) :=
      le_min (by norm_num) (le_max_left _ _)
    have h1 : min 1 (max 0 ((1 - (O - s) / H - startAtQ O H) / (END_OFFSET - startAtQ O H))) ≤ 1 :=
      min_le_left _ _
    obtain ⟨hl, hr⟩ := floor_percent_bounds _ h0 h1
    exact ⟨_, hl, hr,
      updateElement_of_fin _ _ _ _ (clampedProgress_of_lt O H s hH.ne' hlt)⟩

/-- Witness for the amended claim C2 at O = 1000, H = 1000,
scrollTop = 0. -/
theorem update_writes_percent_witness :
    ∃ n : ℤ, 0 ≤ n ∧ n ≤ 100 ∧
      updateElement (.fin 1000) (.fin 1000) (.fin 0) = toString n ++ "%" :=
  update_writes_percent 1000 1000 0 (by norm_num) (by norm_num)

/-- Claim C6: for a fixed element with cached offset O and cached
viewport height H > 0 whose effective start threshold is strictly below
END_OFFSET, the written progress is monotonically non-decreasing in
scrollTop, and once scrollTop reaches O - 0.3 * H it saturates at
"100%". -/
theorem update_monotone (O H s₁ s₂ : ℚ) (hH : 0 < H)
    (hS : startAtQ O H < END_OFFSET) (h12 : s₁ ≤ s₂) :
    (∃ n₁ n₂ : ℤ, n₁ ≤ n₂ ∧
      updateElement (.fin H) (.fin O) (.fin s₁) = toString n₁ ++ "%" ∧
      updateElement (.fin H) (.fin O) (.fin s₂) = toString n₂ ++ "%") ∧
    (O - H * (3 / 10) ≤ s₁ → updateElement (.fin H) (.fin O) (.fin s₁) = "100%") := by
  have hd : 0 < END_OFFSET - startAtQ O H := by linarith
  have e₁ : updateElement (.fin H) (.fin O) (.fin s₁) =
      toString ⌊min 1 (max 0 ((1 - (O - s₁) / H - startAtQ O H) /
        (END_OFFSET - startAtQ O H))) * 100 + 1 / 2⌋ ++ "%" :=
    updateElement_of_fin _ _ _ _ (clampedProgress_of_lt O H s₁ hH.ne' hS)
  have e₂ : updateElement (.fin H) (.fin O) (.fin s₂) =
      toString ⌊min 1 (max 0 ((1 - (O - s₂) / H - startAtQ O H) /
        (END_OFFSET - startAtQ O H))) * 100 + 1 / 2⌋ ++ "%" :=
    updateElement_of_fin _ _ _ _ (clampedProgress_of_lt O H s₂ hH.ne' hS)
  have hq : (1 - (O - s₁) / H - startAtQ O H) / (END_OFFSET - startAtQ O H) ≤
      (1 - (O - s₂) / H - startAtQ O H) / (END_OFFSET - startAtQ O H) := by
    refine (div_le_div_iff_of_pos_right hd).mpr ?_
    have hmono : (O - s₂) / H ≤ (O - s₁) / H :=
      (div_le_div_iff_of_pos_right hH).mpr (by linarith)
    linarith
  have hc : min 1 (max 0 ((1 - (O - s₁) / H - startAtQ O H) / (END_OFFSET - startAtQ O H))) ≤
      min 1 (max 0 ((1 - (O - s₂) / H - startAtQ O H) / (END_OFFSET - startAtQ O H))) :=
    min_le_min le_rfl (max_le_max le_rfl hq)
  refine ⟨⟨_, _, Int.floor_le_floor (by linarith), e₁, e₂⟩, ?_⟩
  intro hs
  have hR : (O - s₁) / H ≤ 3 / 10 := by
    rw [div_le_iff₀ hH]
    linarith
  have hq1 : (1:ℚ) ≤ (1 - (O - s₁) / H - startAtQ O H) / (END_OFFSET - startAtQ O H) := by
    rw [le_div_iff₀ hd, END_OFFSET] at *
    linarith
  have hcc : min 1 (max 0 ((1 - (O - s₁) / H - startAtQ O H) /
      (END_OFFSET - startAtQ O H))) = 1 := by
    refine min_eq_left (le_trans hq1 (le_max_right _ _))
  rw [e₁, hcc]
  norm_num
  decide

/-- Witness for claim C6 at O = 1000, H = 1000, scrollTop values 0 and
650. -/
theorem update_monotone_witness :
    (∃ n₁ n₂ : ℤ, n₁ ≤ n₂ ∧
      updateElement (.fin 1000) (.fin 1000) (.fin 0) = toString n₁ ++ "%" ∧
      updateElement (.fin 1000) (.fin 1000) (.fin 650) = toString n₂ ++ "%") ∧
    ((1000 : ℚ) - 1000 * (3 / 10) ≤ 0 →
      updateElement (.fin 1000) (.fin 1000) (.fin 0) = "100%") :=
  update_monotone 1000 1000 0 650 (by norm_num)
    (by rw [startAtQ, START_OFFSET, if_neg (by norm_num), END_OFFSET]; norm_num)
    (by norm_num)

/-- Claim C2 (counterexample): for an element with cached offset 600 and
cached viewport height 2000 the adaptive adjustment yields S = E = 0.7,
and at scrollTop = 0 the raw progress is 0 / 0 = NaN, so update writes
"NaN%" — not an integer-percentage string in [0, 100]. -/
theorem percent_range_cex :
    startAtQ 600 2000 = END_OFFSET ∧
    updateElement (.fin 2000) (.fin 600) (.fin 0) = "NaN%" := by
  have hS : startAtQ 600 2000 = END_OFFSET := by
    rw [startAtQ, if_pos (by rw [START_OFFSET]; norm_num), END_OFFSET, min_eq_left (by norm_num)]
  exact ⟨hS, updateElement_of_nan _ _ _
    (clampedProgress_degenerate_nan 600 2000 0 (by norm_num) hS (by rw [END_OFFSET]; norm_num))⟩
